import Mathlib

/-!
Shallow embedding of the order/payment flow of `src/server.js`
(e-commerce backend: create-order, request-payment, verify-payment,
auth middleware, my-orders, top-level error handler).

Amounts are integers (currency minor units).  The external payment
gateway is modelled by its response data, which is an input to each
handler; the document store is a list of order records threaded through
the handlers.
-/

namespace FinalWeb

/-- A line item of an order, as sent by the client in `products[]`
(`item.price`, `item.quantity` in `server.js` line 177). -/
structure LineItem where
  price : Int
  quantity : Int
deriving Repr, DecidableEq

/-- Payment status of an order.  The source stores Persian strings:
the default schema value (unpaid), `'پرداخت شده'` (paid, set in
verify-payment on gateway code 100) and `'ناموفق'` (failed, set on any
other code). -/
inductive PaymentStatus where
  | unpaid : PaymentStatus
  | paid : PaymentStatus
  | failed : PaymentStatus
deriving Repr, DecidableEq

/-- An order record.  Fields mirror the document built in
`POST /api/create-order` (`server.js` line 183) plus the fields mutated
by the payment handlers (`paymentAuthority`, `paymentStatus`,
`paymentRefId`).

Modelled from the spec: `orderModel.js` is required by `server.js` but
is not under `src/`; per the spec's data model the schema assigns the
internal id and the external order identifier and a new order starts
unpaid with no authority and no settlement reference id.  The creation
timestamp is schema-assigned and is not used by any handler modelled
here, so it is omitted. -/
structure Order where
  id : Nat
  orderId : String
  user : Option String
  shippingInfo : String
  products : List LineItem
  subtotal : Int
  shippingCost : Int
  amount : Int
  paymentAuthority : Option String
  paymentStatus : PaymentStatus
  paymentRefId : Option String
deriving Repr, DecidableEq

/-- `products.reduce((sum, item) => sum + (item.price * item.quantity), 0)`
(`server.js` line 177). -/
def computeSubtotal (products : List LineItem) : Int :=
  products.foldl (fun sum item => sum + item.price * item.quantity) 0

/-- `const shippingCost = 50000` (`server.js` line 178). -/
def shippingCost : Int := 50000

/-- `const finalAmount = subtotal + shippingCost` (`server.js` line 179). -/
def computeFinalAmount (products : List LineItem) : Int :=
  computeSubtotal products + shippingCost

/-- The bearer credential situation on a request, abstracting the
`Authorization` header and the outcome of `jwt.verify` against the
server secret: absent, present but failing verification, or verifying
to a user id. -/
inductive AuthInput where
  | noHeader : AuthInput
  | invalidToken : AuthInput
  | validToken : String → AuthInput
deriving Repr, DecidableEq

/-- The soft-fail identity extraction inside `POST /api/create-order`
(`server.js` lines 169-176): `userId` stays `null` when the header is
absent or `jwt.verify` throws, and becomes the decoded `_id` otherwise. -/
def extractUserId : AuthInput → Option String
  | AuthInput.noHeader => none
  | AuthInput.invalidToken => none
  | AuthInput.validToken uid => some uid

/-- JavaScript falsiness of the client-declared `amount` in the check
`!amount` (`server.js` line 166): a missing amount and a zero amount
are both falsy. -/
def amountFalsy : Option Int → Bool
  | none => true
  | some a => a == 0

/-- Message of the 400 response for incomplete create-order input
(`server.js` line 167). -/
def incompleteMessage : String := "اطلاعات ارسالی برای ثبت سفارش ناقص است."

/-- Message of the 400 response for an amount mismatch
(`server.js` line 181). -/
def mismatchMessage : String := "مبلغ نهایی با سبد خرید مغایرت دارد."

/-- Outcome of `POST /api/create-order`: a 400 rejection carrying the
response message (nothing persisted), or a 201 with the persisted
order. -/
inductive CreateResult where
  | badRequest : String → CreateResult
  | created : Order → CreateResult
deriving Repr, DecidableEq

/-- `POST /api/create-order` (`server.js` lines 163-189).

`shippingInfo` is an opaque payload modelled as present (`some`) or
absent/falsy (`none`); `products` is `none` when the body field is
missing or not an array.  The completeness check mirrors
`!shippingInfo || !products || !Array.isArray(products) ||
products.length === 0 || !amount`; the tolerance check mirrors
`Math.abs(finalAmount - amount) > 1`.  `freshId` and `freshOrderId`
stand for the identifiers assigned by the persistence schema
(modelled from the spec, see `Order`). -/
def createOrder (auth : AuthInput) (shippingInfo : Option String)
    (products : Option (List LineItem)) (amount : Option Int)
    (freshId : Nat) (freshOrderId : String) : CreateResult :=
  if shippingInfo.isNone || products.isNone || (products.getD []).isEmpty
      || amountFalsy amount then
    CreateResult.badRequest incompleteMessage
  else
    let items := products.getD []
    let clientAmount := amount.getD 0
    let finalAmount := computeFinalAmount items
    if (finalAmount - clientAmount).natAbs > 1 then
      CreateResult.badRequest mismatchMessage
    else
      CreateResult.created
        { id := freshId
          orderId := freshOrderId
          user := extractUserId auth
          shippingInfo := shippingInfo.getD ""
          products := items
          subtotal := computeSubtotal items
          shippingCost := shippingCost
          amount := finalAmount
          paymentAuthority := none
          paymentStatus := PaymentStatus.unpaid
          paymentRefId := none }

/-- `const ZARINPAL_GATEWAY_URL = 'https://www.zarinpal.com/pg/StartPay/'`
(`server.js` line 91). -/
def ZARINPAL_GATEWAY_URL : String := "https://www.zarinpal.com/pg/StartPay/"

/-- The relevant data of the gateway's answer to a payment request:
`zarinpalResp.data.data.code` and `zarinpalResp.data.data.authority`
(`server.js` lines 204-205). -/
structure GatewayReqResponse where
  code : Int
  authority : String
deriving Repr, DecidableEq

/-- The relevant data of the gateway's answer to a verification:
`zarinpalVerifyResp.data.data.code` and
`zarinpalVerifyResp.data.data.ref_id` (`server.js` lines 226-228). -/
structure GatewayVerifyResponse where
  code : Int
  ref_id : String
deriving Repr, DecidableEq

/-- The payload of the outbound `axios.post(ZARINPAL_API_REQUEST, ...)`
call (`server.js` lines 198-203). -/
structure GatewayRequestCall where
  merchant_id : String
  amount : Int
  description : String
  callback_url : String
deriving Repr, DecidableEq

/-- The payload of the outbound `axios.post(ZARINPAL_API_VERIFY, ...)`
call (`server.js` lines 221-225). -/
structure GatewayVerifyCall where
  merchant_id : String
  amount : Int
  authority : String
deriving Repr, DecidableEq

/-- The payment-request payload built for a found order: the amount is
`order.amount`; the description interpolates the body `orderId`; the
callback appends `order.orderId` as query parameter to the configured
callback base (`server.js` lines 196-203). -/
def requestPaymentCall (merchantId callbackBase bodyOrderId : String)
    (order : Order) : GatewayRequestCall :=
  { merchant_id := merchantId
    amount := order.amount
    description := "سفارش " ++ bodyOrderId
    callback_url := callbackBase ++ "?orderId=" ++ order.orderId }

/-- The payment-verification payload built for a found order: the amount
is `order.amount`, the authority the one from the request body
(`server.js` lines 221-225). -/
def verifyPaymentCall (merchantId bodyAuthority : String)
    (order : Order) : GatewayVerifyCall :=
  { merchant_id := merchantId
    amount := order.amount
    authority := bodyAuthority }

/-- `Order.findOne({ orderId: orderId })` (`server.js` line 194). -/
def findByOrderId (store : List Order) (orderId : String) : Option Order :=
  store.find? (fun o => o.orderId == orderId)

/-- `Order.findOne({ orderId: orderId, paymentAuthority: authority })`
(`server.js` line 219). -/
def findByOrderIdAndAuthority (store : List Order)
    (orderId authority : String) : Option Order :=
  store.find? (fun o => o.orderId == orderId
    && o.paymentAuthority == some authority)

/-- `order.save()`: persist the mutated record back into the store,
keyed by its internal id. -/
def saveOrder (store : List Order) (order : Order) : List Order :=
  store.map (fun o => if o.id == order.id then order else o)

/-- Outcome of `POST /api/request-payment`: 404 when no order matches,
200 with the `payment_url` on gateway code 100, or a 500 carrying the
raw gateway response as `detail` on any other code. -/
inductive RequestPaymentResult where
  | notFound : RequestPaymentResult
  | ok : String → RequestPaymentResult
  | gatewayError : GatewayReqResponse → RequestPaymentResult
deriving Repr, DecidableEq

/-- `POST /api/request-payment` (`server.js` lines 191-214).  The
gateway's answer is an input; the returned store reflects what was
persisted.  On code 100 the returned authority is stored on the order
and the response is `ZARINPAL_GATEWAY_URL ++ authority`; on any other
code the order is left untouched and the response carries the gateway
detail. -/
def requestPaymentEndpoint (store : List Order) (orderId : String)
    (gateway : GatewayReqResponse) : RequestPaymentResult × List Order :=
  match findByOrderId store orderId with
  | none => (RequestPaymentResult.notFound, store)
  | some order =>
    if gateway.code == 100 then
      let updated := { order with paymentAuthority := some gateway.authority }
      (RequestPaymentResult.ok (ZARINPAL_GATEWAY_URL ++ gateway.authority),
        saveOrder store updated)
    else
      (RequestPaymentResult.gatewayError gateway, store)

/-- Outcome of `POST /api/verify-payment`: 404 when no order matches the
conjunction of `orderId` and `authority`; otherwise `success:true` with
the finalized order (code 100) or a 400 `success:false` with the
gateway detail and the finalized order (any other code). -/
inductive VerifyResult where
  | notFound : VerifyResult
  | success : Order → VerifyResult
  | failure : Order → GatewayVerifyResponse → VerifyResult
deriving Repr, DecidableEq

/-- `POST /api/verify-payment` (`server.js` lines 216-239).  On code 100
the order's status becomes paid and the gateway `ref_id` is stored; on
any other code the status becomes failed; both branches persist. -/
def verifyPaymentEndpoint (store : List Order) (authority orderId : String)
    (gateway : GatewayVerifyResponse) : VerifyResult × List Order :=
  match findByOrderIdAndAuthority store orderId authority with
  | none => (VerifyResult.notFound, store)
  | some order =>
    if gateway.code == 100 then
      let updated := { order with
        paymentStatus := PaymentStatus.paid
        paymentRefId := some gateway.ref_id }
      (VerifyResult.success updated, saveOrder store updated)
    else
      let updated := { order with paymentStatus := PaymentStatus.failed }
      (VerifyResult.failure updated gateway, saveOrder store updated)

/-- Outcome of the `authMiddleware` (`server.js` lines 96-107): 401 when
no `Authorization` header is present, 400 when `jwt.verify` throws,
otherwise the request proceeds with the decoded user. -/
inductive AuthResult where
  | unauthorized : AuthResult
  | badToken : AuthResult
  | authorized : String → AuthResult
deriving Repr, DecidableEq

/-- `authMiddleware` (`server.js` lines 96-107). -/
def authMiddleware : AuthInput → AuthResult
  | AuthInput.noHeader => AuthResult.unauthorized
  | AuthInput.invalidToken => AuthResult.badToken
  | AuthInput.validToken uid => AuthResult.authorized uid

/-- Outcome of `GET /api/my-orders`. -/
inductive MyOrdersResult where
  | unauthorized : MyOrdersResult
  | badToken : MyOrdersResult
  | ok : List Order → MyOrdersResult
deriving Repr, DecidableEq

/-- `GET /api/my-orders` (`server.js` lines 153-160): guarded by
`authMiddleware`, then `Order.find({ user: req.user._id })`.  The
schema-assigned creation-time sort order does not affect which orders
are returned and is not modelled. -/
def myOrders (auth : AuthInput) (store : List Order) : MyOrdersResult :=
  match authMiddleware auth with
  | AuthResult.unauthorized => MyOrdersResult.unauthorized
  | AuthResult.badToken => MyOrdersResult.badToken
  | AuthResult.authorized uid =>
    MyOrdersResult.ok (store.filter (fun o => o.user == some uid))

/-- The fixed message of the top-level 500 response
(`server.js` line 338). -/
def genericErrorMessage : String := "یک خطای پیش‌بینی نشده در سرور رخ داد."

/-- The JSON body of the top-level error response. -/
structure ErrorResponse where
  status : Nat
  message : String
  error : String
deriving Repr, DecidableEq

/-- The top-level error handler (`server.js` lines 335-341): always a
500 whose `message` is the fixed generic string and whose `error` field
is `err.message`, the failure's own message (the stack trace is only
logged, in every environment). -/
def errorHandler (errMessage : String) : ErrorResponse :=
  { status := 500
    message := genericErrorMessage
    error := errMessage }

/-! ## Helper lemmas -/

theorem computeSubtotal_foldl (l : List LineItem) (a : Int) :
    l.foldl (fun s i => s + i.price * i.quantity) a
      = a + (l.map (fun i => i.price * i.quantity)).sum := by
  induction l generalizing a with
  | nil => simp
  | cons x xs ih =>
    simp only [List.foldl_cons, List.map_cons, List.sum_cons, ih]
    ring

theorem computeSubtotal_eq_sum (items : List LineItem) :
    computeSubtotal items = (items.map (fun i => i.price * i.quantity)).sum := by
  unfold computeSubtotal
  rw [computeSubtotal_foldl]
  simp

/-! ## Claims -/

/-- C6 (confirmed): for every sequence of line items the pricing
computation yields `subtotal = Σ price×quantity` and
`finalAmount = subtotal + 50000` exactly; in particular the items
`[{price := 100000, quantity := 2}]` give subtotal `200000` and final
amount `250000`. -/
theorem pricing_computation_correct :
    (∀ items : List LineItem,
      computeSubtotal items = (items.map (fun i => i.price * i.quantity)).sum
      ∧ computeFinalAmount items
          = (items.map (fun i => i.price * i.quantity)).sum + 50000)
    ∧ computeSubtotal [{ price := 100000, quantity := 2 }] = 200000
    ∧ computeFinalAmount [{ price := 100000, quantity := 2 }] = 250000 := by
  refine ⟨fun items => ⟨computeSubtotal_eq_sum items, ?_⟩, by decide, by decide⟩
  unfold computeFinalAmount
  rw [computeSubtotal_eq_sum items]
  rfl

/-- An order that has already been finalized to paid (authority `"A1"`,
settlement reference `"R9"`), used to exhibit the behaviour of a stale
second verification. -/
def paidSampleOrder : Order :=
  { id := 1
    orderId := "ORD1"
    user := none
    shippingInfo := "addr"
    products := [{ price := 100000, quantity := 2 }]
    subtotal := 200000
    shippingCost := 50000
    amount := 250000
    paymentAuthority := some "A1"
    paymentStatus := PaymentStatus.paid
    paymentRefId := some "R9" }

/-- C1 (code_bug): the verify handler has no guard on an already-paid
order — a second verify call whose gateway answer is a non-100 code
(here 101) regresses the terminal paid order to failed and persists the
regression, instead of no-op'ing as the specification requires. -/
theorem verify_regresses_paid_order :
    paidSampleOrder.paymentStatus = PaymentStatus.paid
    ∧ verifyPaymentEndpoint [paidSampleOrder] "A1" "ORD1"
        { code := 101, ref_id := "" }
      = (VerifyResult.failure
          { paidSampleOrder with paymentStatus := PaymentStatus.failed }
          { code := 101, ref_id := "" },
        [{ paidSampleOrder with paymentStatus := PaymentStatus.failed }]) := by
  exact ⟨rfl, rfl⟩

/-- A line-item list containing an item with quantity `0`. -/
def zeroQuantityItems : List LineItem := [{ price := 100000, quantity := 0 }]

/-- The order record that `createOrder` builds and persists for
`zeroQuantityItems` with declared amount `50000`. -/
def zeroQuantityStoredOrder : Order :=
  { id := 1
    orderId := "ORD2"
    user := none
    shippingInfo := "addr"
    products := zeroQuantityItems
    subtotal := 0
    shippingCost := 50000
    amount := 50000
    paymentAuthority := none
    paymentStatus := PaymentStatus.unpaid
    paymentRefId := none }

/-- C8 (code_bug): create-order performs no per-item validation — an
order whose single line item has quantity `0` passes all checks
(subtotal `0`, final amount `50000`, declared amount `50000`) and is
persisted, violating the data-model invariant `quantity ≥ 1`. -/
theorem createOrder_stores_zero_quantity_item :
    createOrder AuthInput.noHeader (some "addr") (some zeroQuantityItems)
        (some 50000) 1 "ORD2"
      = CreateResult.created zeroQuantityStoredOrder
    ∧ zeroQuantityStoredOrder.products = [{ price := 100000, quantity := 0 }] := by
  exact ⟨rfl, rfl⟩

theorem ne_of_paymentStatus_ne {o2 o : Order}
    (h : o2.paymentStatus ≠ o.paymentStatus) : o2 ≠ o :=
  fun he => h (he ▸ rfl)

/-- C2 (confirmed): verify-payment returns not-found and changes nothing
when no order matches the conjunction of external id and authority;
when an order matches, it finalizes it to paid (storing the gateway
`ref_id`, persisting, answering success with the order) exactly on
gateway code 100, and to failed (persisting, answering failure with the
gateway detail and the order) on any other code; an order that was
still unpaid is never left unmodified. -/
theorem verifyPayment_finalizes (store : List Order)
    (authority orderId : String) (g : GatewayVerifyResponse) :
    (findByOrderIdAndAuthority store orderId authority = none →
      verifyPaymentEndpoint store authority orderId g
        = (VerifyResult.notFound, store))
    ∧ ∀ o, findByOrderIdAndAuthority store orderId authority = some o →
        (g.code = 100 →
          verifyPaymentEndpoint store authority orderId g
            = (VerifyResult.success
                { o with
                  paymentStatus := PaymentStatus.paid
                  paymentRefId := some g.ref_id },
               saveOrder store
                { o with
                  paymentStatus := PaymentStatus.paid
                  paymentRefId := some g.ref_id }))
        ∧ (g.code ≠ 100 →
          verifyPaymentEndpoint store authority orderId g
            = (VerifyResult.failure
                { o with paymentStatus := PaymentStatus.failed } g,
               saveOrder store
                { o with paymentStatus := PaymentStatus.failed }))
        ∧ (o.paymentStatus = PaymentStatus.unpaid →
          ∃ o2, (verifyPaymentEndpoint store authority orderId g).2
                  = saveOrder store o2
            ∧ o2 ≠ o
            ∧ (o2.paymentStatus = PaymentStatus.paid
               ∨ o2.paymentStatus = PaymentStatus.failed)) := by
  constructor
  · intro h
    simp [verifyPaymentEndpoint, h]
  · intro o h
    refine ⟨?_, ?_, ?_⟩
    · intro hc
      simp [verifyPaymentEndpoint, h, hc]
    · intro hc
      have hb : (g.code == 100) = false := by simpa using hc
      simp [verifyPaymentEndpoint, h, hb]
    · intro hs
      by_cases hc : g.code = 100
      · refine ⟨{ o with
            paymentStatus := PaymentStatus.paid
            paymentRefId := some g.ref_id }, ?_, ?_, Or.inl rfl⟩
        · simp [verifyPaymentEndpoint, h, hc]
        · exact ne_of_paymentStatus_ne (by rw [hs]; simp)
      · have hb : (g.code == 100) = false := by simpa using hc
        refine ⟨{ o with paymentStatus := PaymentStatus.failed }, ?_, ?_,
          Or.inr rfl⟩
        · simp [verifyPaymentEndpoint, h, hb]
        · exact ne_of_paymentStatus_ne (by rw [hs]; simp)

/-- An order awaiting verification: unpaid, authority `"A2"` issued. -/
def authorityIssuedSampleOrder : Order :=
  { id := 2
    orderId := "ORD3"
    user := none
    shippingInfo := "addr"
    products := [{ price := 100000, quantity := 2 }]
    subtotal := 200000
    shippingCost := 50000
    amount := 250000
    paymentAuthority := some "A2"
    paymentStatus := PaymentStatus.unpaid
    paymentRefId := none }

/-- Witness for C2: verifying the authority-issued sample order with
gateway code 100 and `ref_id` `"R9"` finalizes it to paid with that
reference and persists it. -/
theorem verifyPayment_finalizes_witness :
    verifyPaymentEndpoint [authorityIssuedSampleOrder] "A2" "ORD3"
        { code := 100, ref_id := "R9" }
      = (VerifyResult.success
          { authorityIssuedSampleOrder with
            paymentStatus := PaymentStatus.paid
            paymentRefId := some "R9" },
         saveOrder [authorityIssuedSampleOrder]
          { authorityIssuedSampleOrder with
            paymentStatus := PaymentStatus.paid
            paymentRefId := some "R9" }) :=
  ((verifyPayment_finalizes [authorityIssuedSampleOrder] "A2" "ORD3"
      { code := 100, ref_id := "R9" }).2
    authorityIssuedSampleOrder rfl).1 rfl

/-- C5 (confirmed): for a found order, request-payment with gateway
code 100 persists the returned authority on the order and answers with
the payment URL `ZARINPAL_GATEWAY_URL ++ authority`; on any other code
it answers with an error carrying the gateway detail and leaves the
store unmodified. -/
theorem requestPayment_outcomes (store : List Order) (orderId : String)
    (g : GatewayReqResponse) (o : Order)
    (h : findByOrderId store orderId = some o) :
    (g.code = 100 →
      requestPaymentEndpoint store orderId g
        = (RequestPaymentResult.ok (ZARINPAL_GATEWAY_URL ++ g.authority),
           saveOrder store { o with paymentAuthority := some g.authority })
      ∧ ({ o with paymentAuthority := some g.authority } : Order).paymentAuthority
          = some g.authority)
    ∧ (g.code ≠ 100 →
      requestPaymentEndpoint store orderId g
        = (RequestPaymentResult.gatewayError g, store)) := by
  constructor
  · intro hc
    refine ⟨?_, rfl⟩
    simp [requestPaymentEndpoint, h, hc]
  · intro hc
    have hb : (g.code == 100) = false := by simpa using hc
    simp [requestPaymentEndpoint, h, hb]

/-- A freshly created order: unpaid, no authority yet. -/
def createdSampleOrder : Order :=
  { id := 3
    orderId := "ORD4"
    user := none
    shippingInfo := "addr"
    products := [{ price := 100000, quantity := 2 }]
    subtotal := 200000
    shippingCost := 50000
    amount := 250000
    paymentAuthority := none
    paymentStatus := PaymentStatus.unpaid
    paymentRefId := none }

/-- Witness for C5: request-payment for the created sample order with
gateway code 100 and authority `"A1"` stores `"A1"` on the order and
answers with the gateway URL ending in `"A1"`. -/
theorem requestPayment_outcomes_witness :
    requestPaymentEndpoint [createdSampleOrder] "ORD4"
        { code := 100, authority := "A1" }
      = (RequestPaymentResult.ok (ZARINPAL_GATEWAY_URL ++ "A1"),
         saveOrder [createdSampleOrder]
          { createdSampleOrder with paymentAuthority := some "A1" }) :=
  ((requestPayment_outcomes [createdSampleOrder] "ORD4"
      { code := 100, authority := "A1" } createdSampleOrder rfl).1 rfl).1

/-- C7 (confirmed): request-payment imposes no precondition on the
order's payment status — for any order found by external id, whatever
its `paymentStatus` (in particular the terminal paid state) and
whatever authority it already carries, a code-100 gateway answer
overwrites the stored payment authority and returns a fresh payment
URL. -/
theorem requestPayment_ignores_status (o : Order) (g : GatewayReqResponse)
    (h : g.code = 100) :
    requestPaymentEndpoint [o] o.orderId g
      = (RequestPaymentResult.ok (ZARINPAL_GATEWAY_URL ++ g.authority),
         [{ o with paymentAuthority := some g.authority }]) := by
  have hf : findByOrderId [o] o.orderId = some o := by
    unfold findByOrderId
    exact List.find?_cons_of_pos _ (by simp)
  simp [requestPaymentEndpoint, hf, h, saveOrder]

/-- An order already finalized to paid, with a stale authority `"OLD"`
and a settlement reference, used to show that request-payment re-issues
from the terminal paid state. -/
def paidWithAuthoritySampleOrder : Order :=
  { id := 5
    orderId := "ORD5"
    user := none
    shippingInfo := "addr"
    products := [{ price := 100000, quantity := 2 }]
    subtotal := 200000
    shippingCost := 50000
    amount := 250000
    paymentAuthority := some "OLD"
    paymentStatus := PaymentStatus.paid
    paymentRefId := some "R1" }

/-- Witness for C7: a request-payment call on an already-paid order with
gateway code 100 and authority `"A2"` overwrites the stored authority
`"OLD"` with `"A2"` and returns the fresh payment URL. -/
theorem requestPayment_ignores_status_witness :
    requestPaymentEndpoint [paidWithAuthoritySampleOrder] "ORD5"
        { code := 100, authority := "A2" }
      = (RequestPaymentResult.ok (ZARINPAL_GATEWAY_URL ++ "A2"),
         [{ paidWithAuthoritySampleOrder with paymentAuthority := some "A2" }]) :=
  requestPayment_ignores_status paidWithAuthoritySampleOrder
    { code := 100, authority := "A2" } rfl

/-- A line-item list whose total cancels the shipping cost, so that the
computed final amount is `0`. -/
def negativePriceItems : List LineItem := [{ price := -50000, quantity := 1 }]

/-- Counterexample to C3 as stated: a request whose input is complete
(shipping info present, non-empty item list, declared amount present,
namely `0`) and whose declared amount matches the computed final amount
exactly (`|0 - 0| = 0 ≤ 1`) is nevertheless rejected as incomplete,
because the JavaScript presence check `!amount` treats the amount `0`
as missing. -/
theorem createOrder_rejects_zero_amount_within_tolerance :
    createOrder AuthInput.noHeader (some "addr") (some negativePriceItems)
        (some 0) 1 "ORD6"
      = CreateResult.badRequest incompleteMessage
    ∧ (computeFinalAmount negativePriceItems - 0).natAbs ≤ 1
    ∧ negativePriceItems ≠ [] := by
  exact ⟨rfl, by decide, by decide⟩

theorem amountFalsy_eq_true (a : Option Int) :
    amountFalsy a = true ↔ a = none ∨ a = some 0 := by
  cases a with
  | none => simp [amountFalsy]
  | some x => simp [amountFalsy]

/-- C3 (corrected): create-order rejects with 400 and persists nothing
exactly when the input is incomplete (missing shipping info, missing or
empty line-item list, missing declared amount), when the declared
amount is `0` (the presence check uses JavaScript falsiness, so a zero
amount counts as missing), or when the computed final amount differs
from the declared amount by strictly more than `1`; a discrepancy of
exactly `1` is accepted. -/
theorem createOrder_reject_characterization :
    (∀ (auth : AuthInput) (ship : Option String)
        (products : Option (List LineItem)) (amount : Option Int)
        (fid : Nat) (oid : String),
      (∃ msg, createOrder auth ship products amount fid oid
          = CreateResult.badRequest msg)
        ↔ (ship = none ∨ products = none ∨ products.getD [] = []
           ∨ amount = none ∨ amount = some 0
           ∨ 1 < (computeFinalAmount (products.getD [])
                   - amount.getD 0).natAbs))
    ∧ ∃ o, createOrder AuthInput.noHeader (some "addr")
          (some [{ price := 100000, quantity := 2 }]) (some 250001) 1 "ORD7"
        = CreateResult.created o := by
  constructor
  · intro auth ship products amount fid oid
    constructor
    · rintro ⟨msg, hmsg⟩
      by_contra hR
      push_neg at hR
      obtain ⟨hs, hp, hpe, ha, ha0, hlt⟩ := hR
      have hs2 : ship.isNone = false := by
        cases ship with
        | none => exact absurd rfl hs
        | some s => rfl
      have hp2 : products.isNone = false := by
        cases products with
        | none => exact absurd rfl hp
        | some l => rfl
      have hpe2 : (products.getD []).isEmpty = false := by
        cases hgl : products.getD [] with
        | nil => exact absurd hgl hpe
        | cons x xs => rfl
      have ha2 : amountFalsy amount = false := by
        cases amount with
        | none => exact absurd rfl ha
        | some x =>
          have hx : x ≠ 0 := fun hx => ha0 (by rw [hx])
          exact beq_eq_false_iff_ne.mpr hx
      have hnl : ¬ 1 < (computeFinalAmount (products.getD [])
          - amount.getD 0).natAbs := Nat.not_lt.mpr hlt
      simp [createOrder, hs2, hp2, hpe2, ha2, hnl] at hmsg
    · intro hR
      by_cases hcond : (ship.isNone || products.isNone
          || (products.getD []).isEmpty || amountFalsy amount) = true
      · exact ⟨incompleteMessage, by simp [createOrder, hcond]⟩
      · have hcond2 : (ship.isNone || products.isNone
            || (products.getD []).isEmpty || amountFalsy amount) = false :=
          Bool.eq_false_iff.mpr hcond
        rcases hR with h | h | h | h | h | h
        · exact absurd (by simp [h]) hcond
        · exact absurd (by simp [h]) hcond
        · exact absurd (by simp [h]) hcond
        · exact absurd (by simp [h, amountFalsy]) hcond
        · exact absurd (by simp [h, amountFalsy]) hcond
        · exact ⟨mismatchMessage, by simp [createOrder, hcond2, h]⟩
  · exact ⟨_, rfl⟩

/-- Witness for C3 (amended): a declared amount off by `2` from the
computed final amount `250000` is rejected. -/
theorem createOrder_reject_characterization_witness :
    ∃ msg, createOrder AuthInput.noHeader (some "addr")
        (some [{ price := 100000, quantity := 2 }]) (some 250002) 1 "ORD10"
      = CreateResult.badRequest msg :=
  (createOrder_reject_characterization.1 AuthInput.noHeader (some "addr")
    (some [{ price := 100000, quantity := 2 }]) (some 250002) 1 "ORD10").mpr
    (Or.inr (Or.inr (Or.inr (Or.inr (Or.inr (by decide))))))

/-- C4 (confirmed): every order accepted by create-order is persisted
with amount equal to the server-computed subtotal plus the shipping
cost — never the client-declared amount when that differs from the
computed value — and that same stored amount is the amount placed in
both the payment-request and the payment-verification gateway
payloads. -/
theorem amount_integrity (auth : AuthInput) (ship : Option String)
    (products : Option (List LineItem)) (amount : Option Int)
    (fid : Nat) (oid : String) (o : Order)
    (h : createOrder auth ship products amount fid oid
      = CreateResult.created o) :
    o.amount = computeSubtotal o.products + shippingCost
    ∧ o.subtotal = computeSubtotal o.products
    ∧ (∀ mid cb bid, (requestPaymentCall mid cb bid o).amount = o.amount)
    ∧ (∀ mid a, (verifyPaymentCall mid a o).amount = o.amount)
    ∧ (∀ ca, amount = some ca → ca ≠ computeFinalAmount o.products →
        o.amount ≠ ca) := by
  simp only [createOrder] at h
  split at h
  · exact absurd h (by simp)
  · split at h
    · exact absurd h (by simp)
    · injection h with h2
      subst h2
      refine ⟨rfl, rfl, fun mid cb bid => rfl, fun mid a => rfl, ?_⟩
      intro ca hca hne heq
      exact hne (by rw [← heq])

/-- The order record persisted for items
`[{price := 100000, quantity := 2}]` in the C4 witness scenario. -/
def boundarySampleOrder : Order :=
  { id := 7
    orderId := "ORD8"
    user := none
    shippingInfo := "addr"
    products := [{ price := 100000, quantity := 2 }]
    subtotal := 200000
    shippingCost := 50000
    amount := 250000
    paymentAuthority := none
    paymentStatus := PaymentStatus.unpaid
    paymentRefId := none }

/-- Witness for C4: a declared amount of `250001` (within tolerance of
the computed `250000`) is accepted, yet the stored amount is the
server-computed `250000`, and that amount is the one placed in both
gateway payloads. -/
theorem amount_integrity_witness :
    boundarySampleOrder.amount
        = computeSubtotal boundarySampleOrder.products + shippingCost
    ∧ boundarySampleOrder.subtotal
        = computeSubtotal boundarySampleOrder.products
    ∧ (requestPaymentCall "MID" "http://cb" "ORD8"
        boundarySampleOrder).amount = boundarySampleOrder.amount
    ∧ (verifyPaymentCall "MID" "A1" boundarySampleOrder).amount
        = boundarySampleOrder.amount
    ∧ boundarySampleOrder.amount ≠ 250001 := by
  obtain ⟨h1, h2, h3, h4, h5⟩ := amount_integrity AuthInput.noHeader
    (some "addr") (some [{ price := 100000, quantity := 2 }]) (some 250001)
    7 "ORD8" boundarySampleOrder rfl
  exact ⟨h1, h2, h3 "MID" "http://cb" "ORD8", h4 "MID" "A1",
    h5 250001 rfl (by decide)⟩

/-- C9 (confirmed): identity handling soft-fails only on order
creation — with no bearer credential or an invalid one, create-order on
otherwise valid input still succeeds and persists the order with owning
user `null` — whereas my-orders with no credential answers 401 and
returns no data. -/
theorem anonymous_checkout_and_protected_listing
    (ship : String) (products : List LineItem) (amount : Int)
    (fid : Nat) (oid : String) (store : List Order)
    (hne : products ≠ [])
    (ha : amount ≠ 0)
    (htol : (computeFinalAmount products - amount).natAbs ≤ 1) :
    (∃ o, createOrder AuthInput.noHeader (some ship) (some products)
        (some amount) fid oid = CreateResult.created o ∧ o.user = none)
    ∧ (∃ o, createOrder AuthInput.invalidToken (some ship) (some products)
        (some amount) fid oid = CreateResult.created o ∧ o.user = none)
    ∧ myOrders AuthInput.noHeader store = MyOrdersResult.unauthorized := by
  have hpe : products.isEmpty = false := by
    cases products with
    | nil => exact absurd rfl hne
    | cons x xs => rfl
  have haf : amountFalsy (some amount) = false := beq_eq_false_iff_ne.mpr ha
  have hnl : ¬ 1 < (computeFinalAmount products - amount).natAbs :=
    Nat.not_lt.mpr htol
  have hmk : ∀ auth : AuthInput,
      createOrder auth (some ship) (some products) (some amount) fid oid
        = CreateResult.created
          { id := fid
            orderId := oid
            user := extractUserId auth
            shippingInfo := ship
            products := products
            subtotal := computeSubtotal products
            shippingCost := shippingCost
            amount := computeFinalAmount products
            paymentAuthority := none
            paymentStatus := PaymentStatus.unpaid
            paymentRefId := none } := by
    intro auth
    simp [createOrder, hpe, haf, hnl]
  exact ⟨⟨_, hmk AuthInput.noHeader, rfl⟩,
    ⟨_, hmk AuthInput.invalidToken, rfl⟩, rfl⟩

/-- Witness for C9: a concrete anonymous checkout with items summing to
the declared amount `250000` succeeds with owning user `null`, and
my-orders without a credential answers 401. -/
theorem anonymous_checkout_and_protected_listing_witness :
    (∃ o, createOrder AuthInput.noHeader (some "addr")
        (some [{ price := 100000, quantity := 2 }]) (some 250000) 9 "ORD9"
      = CreateResult.created o ∧ o.user = none)
    ∧ (∃ o, createOrder AuthInput.invalidToken (some "addr")
        (some [{ price := 100000, quantity := 2 }]) (some 250000) 9 "ORD9"
      = CreateResult.created o ∧ o.user = none)
    ∧ myOrders AuthInput.noHeader [] = MyOrdersResult.unauthorized :=
  anonymous_checkout_and_protected_listing "addr"
    [{ price := 100000, quantity := 2 }] 250000 9 "ORD9" []
    (by decide) (by decide) (by decide)

/-- Counterexample to C10 as stated: the top-level handler's response
body carries the failure's own message verbatim in its `error` field —
here a database connection failure — so internal diagnostic detail does
reach the client (only the stack trace is withheld). -/
theorem errorHandler_leaks_failure_message :
    (errorHandler "MongoNetworkError: connect ECONNREFUSED 127.0.0.1:27017").error
      = "MongoNetworkError: connect ECONNREFUSED 127.0.0.1:27017"
    ∧ "MongoNetworkError: connect ECONNREFUSED 127.0.0.1:27017"
        ≠ genericErrorMessage := by
  exact ⟨rfl, by decide⟩

/-- C10 (corrected): every failure reaching the top-level handler gets a
500 whose `message` field is a fixed generic string, but whose body
also carries the failure's own message in an `error` field, in every
environment; only the stack trace is kept internal. -/
theorem errorHandler_response (err : String) :
    errorHandler err
      = { status := 500, message := genericErrorMessage, error := err } := rfl

/-- Witness for C10 (amended): the handler applied to a concrete
failure message. -/
theorem errorHandler_response_witness :
    errorHandler "boom"
      = { status := 500, message := genericErrorMessage, error := "boom" } :=
  errorHandler_response "boom"

end FinalWeb
